import Mathlib

/-!
Shallow embedding of the nyanpasu privileged-service subsystem
(`backend/tauri/src/core/service/{mod,control,ipc}.rs` and
`backend/tauri/src/core/privilege/manager.rs`), together with theorems
settling the spec claims about it.
-/

namespace Nyanpasu

/-! ### Substring matching (Rust `str::contains` with a string pattern) -/

/-- Does `hay` start with `pat` (on character lists)? -/
def charsStartWith : List Char → List Char → Bool
  | _, [] => true
  | [], _ :: _ => false
  | a :: as, b :: bs => a == b && charsStartWith as bs

/-- Does `hay` contain `pat` as a contiguous substring (character lists)? -/
def charsContain : List Char → List Char → Bool
  | hay, pat =>
    charsStartWith hay pat ||
      match hay with
      | [] => false
      | _ :: t => charsContain t pat

/-- Rust `stderr.contains(pat)`: substring containment on strings. -/
def strContainsSub (hay pat : String) : Bool :=
  charsContain hay.data pat.data

example : strContainsSub "Permission denied: foo" "Permission denied" = true := by decide
example : strContainsSub "all good" "Permission denied" = false := by decide

/-! ### Data model: `ServiceStatus`, `StatusInfo`, process outputs -/

/-- `nyanpasu_ipc::types::ServiceStatus`. -/
inductive ServiceStatus
  | notInstalled
  | stopped
  | running
deriving DecidableEq, Repr

/-- `nyanpasu_ipc::types::StatusInfo` (the `server` payload is abstracted to a string). -/
structure StatusInfo where
  name : String
  version : String
  status : ServiceStatus
  server : Option String
deriving DecidableEq, Repr

/-- The synthetic `NotInstalled` value `status()` fabricates on degraded paths. -/
def notInstalledInfo : StatusInfo :=
  { name := "", version := "", status := ServiceStatus.notInstalled, server := none }

/-- `std::process::ExitStatus`: success flag, exit code, Unix signal. -/
structure ExitStatus where
  success : Bool
  code : Option Int
  signal : Option Int
deriving DecidableEq, Repr

/-- Output of a spawned child process: exit status, stdout (as `some s` when
valid UTF-8, `none` otherwise), stderr (lossily decoded). -/
structure CmdOutput where
  exit : ExitStatus
  stdoutUtf8 : Option String
  stderr : String
deriving DecidableEq, Repr

/-! ### `control::status()` -/

/-- Hard errors `status()` can raise (`anyhow::bail!` sites). -/
inductive StatusErr
  | permissionDenied (stderr : String)
  | commandFailed (code : Option Int) (stderr : String)
deriving DecidableEq, Repr

/-- stderr markers treated as permission denial in `status()`. -/
def permTexts : List String := ["Permission denied", "os error 13"]

/-- stderr markers treated as service-not-installed in `status()`. -/
def notInstalledTexts : List String :=
  ["not installed", "not found", "does not exist", "找不到", "不存在"]

/-- Does `stderr` contain any of the marker substrings? -/
def stderrHasAny (stderr : String) (pats : List String) : Bool :=
  pats.any (fun p => strContainsSub stderr p)

/-- `control::status()`.  Inputs: `parseJson` abstracts `serde_json::from_str`,
`pathExists` is `SERVICE_PATH.as_path().exists()`, `spawn` is the outcome of
spawning `SERVICE_PATH status --json` (`none` = spawn error).  Mirrors the
source: missing executable and spawn failure return the synthetic
`NotInstalled`; a permission-denied stderr marker bails (checked before the
exit-code branch); a failing exit with a not-installed marker degrades to
`NotInstalled`, otherwise bails; invalid UTF-8 or failed JSON parse of stdout
degrade to `NotInstalled`. -/
def statusModel (parseJson : String → Option StatusInfo) (pathExists : Bool)
    (spawn : Option CmdOutput) : Except StatusErr StatusInfo :=
  if !pathExists then
    Except.ok notInstalledInfo
  else
    match spawn with
    | none => Except.ok notInstalledInfo
    | some out =>
      if stderrHasAny out.stderr permTexts then
        Except.error (StatusErr.permissionDenied out.stderr)
      else if !out.exit.success then
        if stderrHasAny out.stderr notInstalledTexts then
          Except.ok notInstalledInfo
        else
          Except.error (StatusErr.commandFailed out.exit.code out.stderr)
      else
        match out.stdoutUtf8 with
        | none => Except.ok notInstalledInfo
        | some s =>
          match parseJson s with
          | none => Except.ok notInstalledInfo
          | some info => Except.ok info

instance exceptDecEq {ε α : Type} [DecidableEq ε] [DecidableEq α] :
    DecidableEq (Except ε α)
  | Except.ok a, Except.ok b =>
    if h : a = b then isTrue (by rw [h]) else isFalse (by intro hh; cases hh; exact h rfl)
  | Except.ok _, Except.error _ => isFalse (by intro h; cases h)
  | Except.error _, Except.ok _ => isFalse (by intro h; cases h)
  | Except.error a, Except.error b =>
    if h : a = b then isTrue (by rw [h]) else isFalse (by intro hh; cases hh; exact h rfl)

example :
    statusModel (fun _ => none) true
      (some { exit := { success := true, code := some 0, signal := none },
              stdoutUtf8 := some "garbage", stderr := "" }) =
    Except.ok notInstalledInfo := by decide

example :
    statusModel (fun _ => none) true
      (some { exit := { success := true, code := some 0, signal := none },
              stdoutUtf8 := some "", stderr := "Permission denied" }) =
    Except.error (StatusErr.permissionDenied "Permission denied") := by decide

/-! ### `control::{install,update,uninstall,start,stop}_service`

Each operation is modelled as a function from an environment (outcomes of
the external interactions it performs, in program order) to its
`anyhow::Result<()>` together with the trace of side effects it performs.
The model follows the Unix (non-macOS) compilation of `control.rs`. -/

/-- Which elevated helper command an operation spawns. -/
inductive CmdKind
  | install
  | update
  | uninstall
  | start
  | stop
  | restart
deriving DecidableEq, Repr

/-- Observable side effects of a control operation. -/
inductive Eff
  | elevated (c : CmdKind)
  | setKillFlag
  | spawnedHealthCheck
deriving DecidableEq, Repr

/-- Errors a control operation can raise. -/
inductive CtlErr
  | argsFailed
  | exeNotFound
  | elevationFailed
  | processFailed (code : Option Int) (output : String)
deriving DecidableEq, Repr

/-- Environment of a control-operation run: shared resolved-path existence, the
successive outcomes of its `status()` subprocess spawns, the JSON parser,
`get_service_install_args` success, the outcome of the single elevated spawn,
the `enable_service_mode` flag and the `HEALTH_CHECK_RUNNING` flag. -/
structure ControlEnv where
  pathExists : Bool
  statusSpawns : List (Option CmdOutput)
  parseJson : String → Option StatusInfo
  argsOk : Bool
  elevateResult : Except Unit (ExitStatus × String)
  serviceMode : Bool
  healthRunning : Bool

/-- The `n`-th `status()` call performed by an operation under `env`. -/
def statusAt (env : ControlEnv) (n : Nat) : Except StatusErr StatusInfo :=
  statusModel env.parseJson env.pathExists ((env.statusSpawns.get? n).getD none)

/-- Shared tail of `install`/`start`/`restart`: if `enable_service_mode` is on
and the follow-up `status()` (call index `n`) reports one of `okStates`, spawn
the health check unless `HEALTH_CHECK_RUNNING` is already set. -/
def healthGate (env : ControlEnv) (n : Nat) (okStates : List ServiceStatus) : List Eff :=
  if env.serviceMode then
    match statusAt env n with
    | Except.ok info =>
      if info.status ∈ okStates && !env.healthRunning then [Eff.spawnedHealthCheck] else []
    | Except.error _ => []
  else []

/-- Outcome of the elevated spawn: `Except.error` for a spawn/elevation error,
otherwise checks `ExitStatus.success` as the source does. -/
def runElevated (env : ControlEnv) (c : CmdKind) : Except CtlErr Unit × List Eff :=
  match env.elevateResult with
  | Except.error _ => (Except.error CtlErr.elevationFailed, [Eff.elevated c])
  | Except.ok (st, out) =>
    if st.success then (Except.ok (), [Eff.elevated c])
    else (Except.error (CtlErr.processFailed st.code out), [Eff.elevated c])

/-- `control::install_service()`: skip (Ok) if the pre-check status is `Ok`
and not `NotInstalled`; then compute install args, require the resolved
executable to exist, run the elevated install command, and on success gate
the health-check spawn on `enable_service_mode` plus a fresh status showing
`Running` or `Stopped`. -/
def install_service_inner (env : ControlEnv) : Except CtlErr Unit × List Eff :=
  if !env.argsOk then (Except.error CtlErr.argsFailed, [])
  else if !env.pathExists then (Except.error CtlErr.exeNotFound, [])
  else
    match runElevated env CmdKind.install with
    | (Except.error e, effs) => (Except.error e, effs)
    | (Except.ok (), effs) =>
      (Except.ok (),
        effs ++ healthGate env 1 [ServiceStatus.running, ServiceStatus.stopped])

def install_service (env : ControlEnv) : Except CtlErr Unit × List Eff :=
  match statusAt env 0 with
  | Except.ok info =>
    if info.status != ServiceStatus.notInstalled then (Except.ok (), [])
    else install_service_inner env
  | Except.error _ => install_service_inner env

/-- `control::update_service()`: skip (Ok) when the resolved executable is
missing; otherwise run the elevated update command. -/
def update_service (env : ControlEnv) : Except CtlErr Unit × List Eff :=
  if !env.pathExists then (Except.ok (), [])
  else runElevated env CmdKind.update

/-- `control::uninstall_service()`: skip (Ok) if status is `Ok NotInstalled`;
skip (Ok) when the resolved executable is missing; otherwise run the elevated
uninstall command and on success set the kill flag. -/
def uninstall_service_inner (env : ControlEnv) : Except CtlErr Unit × List Eff :=
  if !env.pathExists then (Except.ok (), [])
  else
    match runElevated env CmdKind.uninstall with
    | (Except.error e, effs) => (Except.error e, effs)
    | (Except.ok (), effs) => (Except.ok (), effs ++ [Eff.setKillFlag])

def uninstall_service (env : ControlEnv) : Except CtlErr Unit × List Eff :=
  match statusAt env 0 with
  | Except.ok info =>
    if info.status == ServiceStatus.notInstalled then (Except.ok (), [])
    else uninstall_service_inner env
  | Except.error _ => uninstall_service_inner env

/-- `control::start_service()`: skip (Ok) if status is `Ok Running`; require
the resolved executable to exist; run the elevated start command; on success
gate the health-check spawn on `enable_service_mode` plus a fresh status
showing `Running`. -/
def start_service_inner (env : ControlEnv) : Except CtlErr Unit × List Eff :=
  if !env.pathExists then (Except.error CtlErr.exeNotFound, [])
  else
    match runElevated env CmdKind.start with
    | (Except.error e, effs) => (Except.error e, effs)
    | (Except.ok (), effs) =>
      (Except.ok (), effs ++ healthGate env 1 [ServiceStatus.running])

def start_service (env : ControlEnv) : Except CtlErr Unit × List Eff :=
  match statusAt env 0 with
  | Except.ok info =>
    if info.status == ServiceStatus.running then (Except.ok (), [])
    else start_service_inner env
  | Except.error _ => start_service_inner env

/-- `control::stop_service()`: skip (Ok) if status is `Ok` and `Stopped` or
`NotInstalled`; skip (Ok) when the resolved executable is missing; otherwise
run the elevated stop command and on success set the kill flag. -/
def stop_service_inner (env : ControlEnv) : Except CtlErr Unit × List Eff :=
  if !env.pathExists then (Except.ok (), [])
  else
    match runElevated env CmdKind.stop with
    | (Except.error e, effs) => (Except.error e, effs)
    | (Except.ok (), effs) => (Except.ok (), effs ++ [Eff.setKillFlag])

def stop_service (env : ControlEnv) : Except CtlErr Unit × List Eff :=
  match statusAt env 0 with
  | Except.ok info =>
    if info.status == ServiceStatus.stopped || info.status == ServiceStatus.notInstalled then
      (Except.ok (), [])
    else stop_service_inner env
  | Except.error _ => stop_service_inner env

/-! ### `ipc.rs`: IPC state, dispatch, and the health-check loop -/

/-- `ipc::IpcState`. -/
inductive IpcState
  | connected
  | disconnected
deriving DecidableEq, Repr

/-- `ipc::dispatch_connected`: compare-and-swap `Disconnected → Connected`;
the change callback fires (one `Connected` notification) only when the CAS
succeeds, i.e. when the previous state was exactly `Disconnected`. -/
def dispatchConnected (st : IpcState) : IpcState × List IpcState :=
  if st = IpcState.disconnected then (IpcState.connected, [IpcState.connected])
  else (st, [])

/-- `ipc::dispatch_disconnected`: compare-and-swap `Connected → Disconnected`;
the change callback fires only when the CAS succeeds. -/
def dispatchDisconnected (st : IpcState) : IpcState × List IpcState :=
  if st = IpcState.connected then (IpcState.disconnected, [IpcState.disconnected])
  else (st, [])

/-- Outcome of one `control::status()` query as seen by `health_check()`. -/
inductive HCResult
  | ok (s : ServiceStatus)
  | err
deriving DecidableEq, Repr

/-- `ipc::health_check()`: `Ok(Running)` dispatches connected; `Ok(Stopped)`,
`Ok(NotInstalled)` and `Err(_)` dispatch disconnected.  Returns the new IPC
state and the notifications fired. -/
def healthCheckStep (st : IpcState) : HCResult → IpcState × List IpcState
  | HCResult.ok ServiceStatus.running => dispatchConnected st
  | HCResult.ok ServiceStatus.stopped => dispatchDisconnected st
  | HCResult.ok ServiceStatus.notInstalled => dispatchDisconnected st
  | HCResult.err => dispatchDisconnected st

/-- Observable events of the health-check loop. -/
inductive LoopEvent
  | notified (s : IpcState)
  | slept (secs : Nat)
deriving DecidableEq, Repr

/-- The loop body of `ipc::spawn_health_check`.  `kill i` is the value the
`KILL_FLAG` load returns at the start of the iteration performed after `i`
completed checks; `results` are the successive `health_check()` outcomes
(used as fuel: an empty list truncates the observation); `count` is
`check_count`; `st` the current IPC state.  Returns the final IPC state, the
final `HEALTH_CHECK_RUNNING` value, and the event trace.  On a set kill flag
the loop `set_ipc_state(Disconnected)`s — an unconditional store whose change
callback fires regardless of the prior state — clears the running flag and
breaks.  Otherwise it runs `health_check()`, increments `check_count`, and
sleeps 5 seconds while `check_count < 3`, 30 seconds after. -/
def runLoop (kill : Nat → Bool) : List HCResult → Nat → IpcState →
    IpcState × Bool × List LoopEvent
  | results, count, st =>
    if kill count then
      (IpcState.disconnected, false, [LoopEvent.notified IpcState.disconnected])
    else
      match results with
      | [] => (st, true, [])
      | r :: rest =>
        let p := healthCheckStep st r
        let interval := if count + 1 < 3 then 5 else 30
        let q := runLoop kill rest (count + 1) p.1
        (q.1, q.2.1, p.2.map LoopEvent.notified ++ LoopEvent.slept interval :: q.2.2)

/-- The sleep durations of an event trace, in order. -/
def sleepsOf (evs : List LoopEvent) : List Nat :=
  evs.filterMap fun e =>
    match e with
    | LoopEvent.slept n => some n
    | _ => none

/-- The notifications of an event trace, in order. -/
def notificationsOf (evs : List LoopEvent) : List IpcState :=
  evs.filterMap fun e =>
    match e with
    | LoopEvent.notified s => some s
    | _ => none

example :
    notificationsOf
      (runLoop (fun _ => false)
        [HCResult.ok ServiceStatus.running, HCResult.ok ServiceStatus.running,
         HCResult.ok ServiceStatus.stopped] 0 IpcState.disconnected).2.2 =
    [IpcState.connected, IpcState.disconnected] := by decide

/-! ### `mod.rs`: service path resolution -/

/-- A filesystem path, as its list of components. -/
abbrev FsPath := List String

/-- `SERVICE_NAME` with `EXE_SUFFIX` appended (the base binary file name). -/
def serviceBaseName (exeSuffix : String) : String :=
  "nyanpasu-service" ++ exeSuffix

/-- `mod::service_file_names()`: the base name, plus a target-triple-suffixed
variant when `TAURI_ENV_TARGET_TRIPLE` was set at build time. -/
def service_file_names (triple : Option String) (exeSuffix : String) : List String :=
  match triple with
  | none => [serviceBaseName exeSuffix]
  | some t => [serviceBaseName exeSuffix, "nyanpasu-service" ++ "-" ++ t ++ exeSuffix]

/-- Environment of path resolution: the directory of the current executable
(`none` when `current_exe()` fails), `%PROGRAMFILES%`, the app install dir
(`none` when `app_install_dir()` errs), `%PROGRAMDATA%`, the build-time target
triple, the platform `EXE_SUFFIX`, and the file-existence oracle. -/
structure PathEnv where
  exeDir : Option FsPath
  programFiles : Option FsPath
  appInstall : Option FsPath
  programData : Option FsPath
  triple : Option String
  exeSuffix : String
  fileExists : FsPath → Bool

/-- The file names searched under `env`. -/
def pathEnvNames (env : PathEnv) : List String :=
  service_file_names env.triple env.exeSuffix

/-- `mod::get_service_path_candidates()` (Windows compilation, which includes
the Program Files and PROGRAMDATA groups): in order, the current-exe `sidecar`
subdirectory, the current-exe directory, `%PROGRAMFILES%/nyanpasu`, the app
install dir's `sidecar` subdirectory, the app install dir itself, and
`%PROGRAMDATA%/nyanpasu-service/data`; groups whose base directory is
unavailable are skipped. -/
def get_service_path_candidates (env : PathEnv) : List FsPath :=
  (match env.exeDir with
   | some d =>
     (pathEnvNames env).map (fun n => d ++ ["sidecar", n]) ++
       (pathEnvNames env).map (fun n => d ++ [n])
   | none => []) ++
  (match env.programFiles with
   | some pf => (pathEnvNames env).map (fun n => pf ++ ["nyanpasu", n])
   | none => []) ++
  (match env.appInstall with
   | some a =>
     (pathEnvNames env).map (fun n => a ++ ["sidecar", n]) ++
       (pathEnvNames env).map (fun n => a ++ [n])
   | none => []) ++
  (match env.programData with
   | some pd => (pathEnvNames env).map (fun n => pd ++ ["nyanpasu-service", "data", n])
   | none => [])

/-- `mod::get_service_path()`: the first existing candidate, else the fallback
`app_install_dir()/nyanpasu-service<EXE_SUFFIX>` (an `Err` only when even
`app_install_dir()` fails). -/
def get_service_path (env : PathEnv) : Except Unit FsPath :=
  match (get_service_path_candidates env).find? (fun p => env.fileExists p) with
  | some p => Except.ok p
  | none =>
    match env.appInstall with
    | some a => Except.ok (a ++ [serviceBaseName env.exeSuffix])
    | none => Except.error ()

/-! ### `privilege/manager.rs`: the Privilege Manager -/

/-- `PrivilegedOperation` (paths and DNS lists abstracted to strings). -/
inductive PrivilegedOperation
  | setTunMode (enable : Bool)
  | modifyNetworkSettings (dns : Option (List String))
  | updateCorePermissions (corePath : String)
deriving DecidableEq, Repr

/-- `PrivilegedOperationResult`. -/
structure PrivilegedOperationResult where
  success : Bool
  message : Option String
  handlerUsed : String
deriving DecidableEq, Repr

/-- Observable side effects of `execute_operation`. -/
inductive PEff
  | autoSetupAttempt
  | handlerExec (op : PrivilegedOperation)
  | checkStopIdle
  | patchVerge (enableTunMode : Option Bool)
deriving DecidableEq, Repr

/-- Environment of an `execute_operation` run: whether `service_handler` is
`Some`, the successive `is_available()` results, the outcome of
`handler.execute`, the `auto_service_setup` flag, whether
`auto_setup_service()` returns `Ok`, and the outcome of the fallback
`patch_verge` call. -/
structure PrivEnv where
  handlerSome : Bool
  avail : List Bool
  execResult : Except String Unit
  autoServiceSetup : Bool
  autoSetupOk : Bool
  patchResult : Except String Unit

/-- The `n`-th `is_available()` result under `env`. -/
def availAt (env : PrivEnv) (n : Nat) : Bool :=
  (env.avail.get? n).getD false

/-- `ServicePrivilegeHandler::name()`. -/
def handlerName : String := "service"

/-- Wrap `handler.execute`'s outcome as the manager does: `Ok(())` becomes
`success:true` with no message, `Err(e)` becomes `success:false` with a
message — never a hard error. -/
def wrapHandlerResult (execResult : Except String Unit) :
    Except String PrivilegedOperationResult :=
  match execResult with
  | Except.ok () =>
    Except.ok { success := true, message := none, handlerUsed := handlerName }
  | Except.error e =>
    Except.ok
      { success := false, message := some ("操作失败: " ++ e), handlerUsed := handlerName }

/-- `PrivilegeManager::handle_disable_operation`: if the handler exists and
reports available, execute through it (wrapping failure into `success:false`)
and, on success, check whether the now-idle service should be stopped;
otherwise fall back: for `SetTunMode` patch the config with
`enable_tun_mode = Some(false)` via `patch_verge` and report success iff the
patch succeeded (`handler_used = "config_direct"`); for any other operation
report an unsupported failure. -/
def handle_disable_operation (env : PrivEnv) (op : PrivilegedOperation) :
    Except String PrivilegedOperationResult × List PEff :=
  if env.handlerSome && availAt env 0 then
    match env.execResult with
    | Except.ok () =>
      (wrapHandlerResult (Except.ok ()), [PEff.handlerExec op, PEff.checkStopIdle])
    | Except.error e =>
      (wrapHandlerResult (Except.error e), [PEff.handlerExec op])
  else
    match op with
    | PrivilegedOperation.setTunMode _ =>
      match env.patchResult with
      | Except.ok () =>
        (Except.ok
          { success := true, message := some "已关闭TUN模式配置",
            handlerUsed := "config_direct" },
         [PEff.patchVerge (some false)])
      | Except.error e =>
        (Except.ok
          { success := false, message := some ("配置更新失败: " ++ e),
            handlerUsed := "config_direct" },
         [PEff.patchVerge (some false)])
    | _ =>
      (Except.ok
        { success := false, message := some "不支持的操作", handlerUsed := "unsupported" },
       [])

/-- The `service_not_running` result returned when no handler path is usable. -/
def serviceNotRunningResult : PrivilegedOperationResult :=
  { success := false, message := some "服务未启动，请先启动服务后再试",
    handlerUsed := "service_not_running" }

/-- `PrivilegeManager::execute_service_operation`: `SetTunMode{enable:false}`
is the disable path; every other operation takes the enable path, which checks
availability, optionally attempts `auto_setup_service` (its failure only
logged), re-checks availability after a successful auto-setup, and either
executes via the handler (wrapping failure into `success:false`) or returns
the `service_not_running` result. -/
def execute_service_operation (env : PrivEnv) (op : PrivilegedOperation) :
    Except String PrivilegedOperationResult × List PEff :=
  let isDisable :=
    match op with
    | PrivilegedOperation.setTunMode enable => !enable
    | _ => false
  if isDisable then handle_disable_operation env op
  else if env.handlerSome then
    let a0 := availAt env 0
    let attempted := !a0 && env.autoServiceSetup
    let a := if attempted then (if env.autoSetupOk then availAt env 1 else false) else a0
    let effs := if attempted then [PEff.autoSetupAttempt] else []
    if a then (wrapHandlerResult env.execResult, effs ++ [PEff.handlerExec op])
    else (Except.ok serviceNotRunningResult, effs)
  else (Except.ok serviceNotRunningResult, [])

/-- `PrivilegeManager::execute_operation` delegates to
`execute_service_operation`. -/
def execute_operation (env : PrivEnv) (op : PrivilegedOperation) :
    Except String PrivilegedOperationResult × List PEff :=
  execute_service_operation env op

/-! ### Helper lemmas about the health-check loop -/

theorem sleepsOf_append (a b : List LoopEvent) :
    sleepsOf (a ++ b) = sleepsOf a ++ sleepsOf b := by
  simp [sleepsOf, List.filterMap_append]

theorem sleepsOf_notified_map (l : List IpcState) :
    sleepsOf (l.map LoopEvent.notified) = [] := by
  induction l with
  | nil => rfl
  | cons s t ih => simp [sleepsOf, List.filterMap_cons]

theorem sleepsOf_slept_cons (n : Nat) (evs : List LoopEvent) :
    sleepsOf (LoopEvent.slept n :: evs) = n :: sleepsOf evs := by
  simp [sleepsOf, List.filterMap_cons]

/-- With the kill flag never set, the sleep intervals produced by the loop
starting at `check_count = c` are `5` while the incremented count stays below
`3` and `30` afterwards. -/
theorem runLoop_noKill_sleeps (results : List HCResult) : ∀ (c : Nat) (st : IpcState),
    sleepsOf (runLoop (fun _ => false) results c st).2.2 =
      (List.range results.length).map (fun i => if c + i + 1 < 3 then 5 else 30) := by
  induction results with
  | nil => intro c st; simp [runLoop, sleepsOf]
  | cons r rest ih =>
    intro c st
    have hstep : runLoop (fun _ => false) (r :: rest) c st =
        ((runLoop (fun _ => false) rest (c + 1) (healthCheckStep st r).1).1,
         (runLoop (fun _ => false) rest (c + 1) (healthCheckStep st r).1).2.1,
         (healthCheckStep st r).2.map LoopEvent.notified ++
           LoopEvent.slept (if c + 1 < 3 then 5 else 30) ::
             (runLoop (fun _ => false) rest (c + 1) (healthCheckStep st r).1).2.2) := rfl
    rw [hstep]
    simp only [sleepsOf_append, sleepsOf_notified_map, sleepsOf_slept_cons, List.nil_append]
    rw [ih (c + 1) (healthCheckStep st r).1]
    rw [List.length_cons, List.range_succ_eq_map, List.map_cons, List.map_map]
    refine congrArg₂ List.cons rfl ?_
    apply List.map_congr_left
    intro i _
    simp only [Function.comp_apply]
    split <;> split <;> first | rfl | omega

/-! ### Claim theorems: the IPC Health Monitor (C1, C4, C5) -/

/-- Claim C1: starting from `Disconnected`, the status sequence
`[Running, Running, Stopped]` produces exactly the notifications
`[Connected, Disconnected]` — one `Connected`, then one `Disconnected`, with
no duplicate for the repeated `Running` — and the dispatch functions fire the
change callback only when their compare-and-swap from the expected prior
state succeeds. -/
theorem claim_C1 :
    notificationsOf
      (runLoop (fun _ => false)
        [HCResult.ok ServiceStatus.running, HCResult.ok ServiceStatus.running,
         HCResult.ok ServiceStatus.stopped] 0 IpcState.disconnected).2.2 =
      [IpcState.connected, IpcState.disconnected] ∧
    dispatchConnected IpcState.disconnected =
      (IpcState.connected, [IpcState.connected]) ∧
    dispatchConnected IpcState.connected = (IpcState.connected, []) ∧
    dispatchDisconnected IpcState.connected =
      (IpcState.disconnected, [IpcState.disconnected]) ∧
    dispatchDisconnected IpcState.disconnected = (IpcState.disconnected, []) := by
  refine ⟨by decide, by decide, by decide, by decide, by decide⟩

/-- Claim C4, counterexample: in a kill-free execution with three checks the
loop's sleep intervals are `[5, 5, 30]`, not `[5, 5, 5]` — the third gap is
already 30 seconds, so the claim that the first 3 gaps are 5 seconds is false
on the code. -/
theorem claim_C4_counterexample :
    sleepsOf
      (runLoop (fun _ => false)
        [HCResult.ok ServiceStatus.running, HCResult.ok ServiceStatus.running,
         HCResult.ok ServiceStatus.running] 0 IpcState.disconnected).2.2 =
      [5, 5, 30] ∧
    ([5, 5, 30] : List Nat) ≠ [5, 5, 5] := by
  refine ⟨by decide, by decide⟩

/-- Claim C4 as amended: in every kill-free execution, the first 2 sleep
intervals between successive health checks are 5 seconds and every interval
from the 3rd gap onward is 30 seconds. -/
theorem claim_C4_amended (results : List HCResult) (st : IpcState) :
    sleepsOf (runLoop (fun _ => false) results 0 st).2.2 =
      (List.range results.length).map (fun i => if i < 2 then 5 else 30) := by
  rw [runLoop_noKill_sleeps results 0 st]
  apply List.map_congr_left
  intro i _
  split <;> split <;> first | rfl | omega

/-- Claim C5: whenever the kill flag reads set at an iteration boundary, the
loop terminates immediately at that boundary — for every prior IPC state
(`Connected` or `Disconnected`), every pending result script and every
`check_count` — publishing `Disconnected` unconditionally (the notification
fires regardless of the prior state, unlike the CAS dispatches) and clearing
the `HEALTH_CHECK_RUNNING` flag before exiting. -/
theorem claim_C5 (kill : Nat → Bool) (results : List HCResult) (count : Nat)
    (st : IpcState) (h : kill count = true) :
    runLoop kill results count st =
      (IpcState.disconnected, false, [LoopEvent.notified IpcState.disconnected]) := by
  cases results <;> simp [runLoop, h]

/-- Witness for C5 at a concrete input: kill flag set, prior state
`Connected`, a pending `Running` result that is never consumed. -/
theorem claim_C5_witness :
    runLoop (fun _ => true) [HCResult.ok ServiceStatus.running] 0 IpcState.connected =
      (IpcState.disconnected, false, [LoopEvent.notified IpcState.disconnected]) :=
  claim_C5 (fun _ => true) [HCResult.ok ServiceStatus.running] 0 IpcState.connected rfl

/-! ### Claim theorems: `status()` failure policy (C2, C3) -/

/-- The concrete output refuting claim C2 as stated: a non-zero exit whose
stderr carries a not-installed indication but also the permission-denied
marker. -/
def c2CexOutput : CmdOutput :=
  { exit := { success := false, code := some 1, signal := none },
    stdoutUtf8 := some "",
    stderr := "Permission denied: service not installed" }

/-- Claim C2, counterexample: a `status()` invocation whose spawned command
exits non-zero with stderr containing the not-installed indication
`"not installed"` does NOT return `Ok(NotInstalled)` — because the stderr also
contains `"Permission denied"`, which `status()` checks first, the call
returns a hard error.  This refutes the claim's unconditional statement that
a non-zero exit with a not-installed stderr indication yields
`Ok(NotInstalled)`. -/
theorem claim_C2_counterexample :
    stderrHasAny c2CexOutput.stderr notInstalledTexts = true ∧
    c2CexOutput.exit.success = false ∧
    statusModel (fun _ => none) true (some c2CexOutput) =
      Except.error (StatusErr.permissionDenied
        "Permission denied: service not installed") := by
  refine ⟨by decide, by decide, by decide⟩

/-- Claim C2 as amended: provided the spawned command's stderr contains
neither `"Permission denied"` nor `"os error 13"`, each of the degraded
conditions — absence of the service executable, failure to spawn the status
process, a non-zero exit whose stderr contains a not-installed/not-found
indication (English or localized), and a UTF-8 or JSON parse failure of
stdout — makes `status()` return `Ok` with the synthetic `NotInstalled`
`StatusInfo` rather than an error; in particular malformed JSON on stdout
with exit code 0 yields `NotInstalled`, not an error. -/
theorem claim_C2_amended (parseJson : String → Option StatusInfo) :
    (∀ spawn, statusModel parseJson false spawn = Except.ok notInstalledInfo) ∧
    (statusModel parseJson true none = Except.ok notInstalledInfo) ∧
    (∀ out : CmdOutput, stderrHasAny out.stderr permTexts = false →
      out.exit.success = false →
      stderrHasAny out.stderr notInstalledTexts = true →
      statusModel parseJson true (some out) = Except.ok notInstalledInfo) ∧
    (∀ out : CmdOutput, stderrHasAny out.stderr permTexts = false →
      out.exit.success = true →
      (∀ s, out.stdoutUtf8 = some s → parseJson s = none) →
      statusModel parseJson true (some out) = Except.ok notInstalledInfo) := by
  refine ⟨fun spawn => by simp [statusModel], by simp [statusModel], ?_, ?_⟩
  · intro out hperm hexit hni
    simp [statusModel, hperm, hexit, hni]
  · intro out hperm hexit hparse
    cases hout : out.stdoutUtf8 with
    | none => simp [statusModel, hperm, hexit, hout]
    | some s => simp [statusModel, hperm, hexit, hout, hparse s hout]

/-- Witness for the amended C2 at concrete inputs: a missing executable; a
spawn failure; a non-zero exit with stderr `"service not found"`; and a
zero exit whose stdout is the non-JSON string `"garbage"` under a parser
rejecting it. -/
theorem claim_C2_amended_witness :
    statusModel (fun _ => none) false none = Except.ok notInstalledInfo ∧
    statusModel (fun _ => none) true none = Except.ok notInstalledInfo ∧
    statusModel (fun _ => none) true
      (some { exit := { success := false, code := some 1, signal := none },
              stdoutUtf8 := some "", stderr := "service not found" }) =
      Except.ok notInstalledInfo ∧
    statusModel (fun _ => none) true
      (some { exit := { success := true, code := some 0, signal := none },
              stdoutUtf8 := some "garbage", stderr := "" }) =
      Except.ok notInstalledInfo :=
  ⟨(claim_C2_amended (fun _ => none)).1 none,
   (claim_C2_amended (fun _ => none)).2.1,
   (claim_C2_amended (fun _ => none)).2.2.1
     { exit := { success := false, code := some 1, signal := none },
       stdoutUtf8 := some "", stderr := "service not found" }
     (by decide) (by decide) (by decide),
   (claim_C2_amended (fun _ => none)).2.2.2
     { exit := { success := true, code := some 0, signal := none },
       stdoutUtf8 := some "garbage", stderr := "" }
     (by decide) (by decide) (fun s _ => rfl)⟩

/-- Claim C3: whenever the spawned status command's stderr contains the
substring `"Permission denied"`, `status()` returns a hard error carrying the
permission-denied message — regardless of the exit status, the stdout
content, or the JSON parser; the case is never downgraded to `NotInstalled`. -/
theorem claim_C3 (parseJson : String → Option StatusInfo) (out : CmdOutput)
    (h : strContainsSub out.stderr "Permission denied" = true) :
    statusModel parseJson true (some out) =
      Except.error (StatusErr.permissionDenied out.stderr) := by
  have hany : stderrHasAny out.stderr permTexts = true := by
    simp [stderrHasAny, permTexts]
    exact Or.inl h
  simp [statusModel, hany]

/-- Witness for C3 at a concrete input: exit code 0 (success) with
well-formed stdout, yet stderr contains `"Permission denied"`. -/
theorem claim_C3_witness :
    statusModel (fun _ => some notInstalledInfo) true
      (some { exit := { success := true, code := some 0, signal := none },
              stdoutUtf8 := some "json-ok",
              stderr := "error: Permission denied (socket)" }) =
      Except.error (StatusErr.permissionDenied
        "error: Permission denied (socket)") :=
  claim_C3 (fun _ => some notInstalledInfo)
    { exit := { success := true, code := some 0, signal := none },
      stdoutUtf8 := some "json-ok",
      stderr := "error: Permission denied (socket)" }
    (by decide)

/-! ### Claim theorems: control-operation pre-checks (C6) and missing
executable asymmetry (C10) -/

/-- Claim C6: each control operation short-circuits to `Ok` with an empty
effect trace — no elevation-primitive invocation, no spawn — when its
pre-check `status()` query already reports the target state: `install` when
status is `Ok` and not `NotInstalled`; `start` when `Running`; `stop` when
`Stopped` or `NotInstalled`; `uninstall` when `NotInstalled`. -/
theorem claim_C6 (env : ControlEnv) :
    (∀ info, statusAt env 0 = Except.ok info →
      info.status ≠ ServiceStatus.notInstalled →
      install_service env = (Except.ok (), [])) ∧
    (∀ info, statusAt env 0 = Except.ok info →
      info.status = ServiceStatus.running →
      start_service env = (Except.ok (), [])) ∧
    (∀ info, statusAt env 0 = Except.ok info →
      (info.status = ServiceStatus.stopped ∨ info.status = ServiceStatus.notInstalled) →
      stop_service env = (Except.ok (), [])) ∧
    (∀ info, statusAt env 0 = Except.ok info →
      info.status = ServiceStatus.notInstalled →
      uninstall_service env = (Except.ok (), [])) := by
  refine ⟨?_, ?_, ?_, ?_⟩
  · intro info h hne
    simp [install_service, h, hne]
  · intro info h hrun
    simp [start_service, h, hrun]
  · intro info h hst
    rcases hst with hst | hst <;> simp [stop_service, h, hst]
  · intro info h hni
    simp [uninstall_service, h, hni]

/-- A `StatusInfo` reporting `Running`. -/
def runningInfo : StatusInfo :=
  { name := "nyanpasu-service", version := "1.0", status := ServiceStatus.running,
    server := none }

/-- A `StatusInfo` reporting `Stopped`. -/
def stoppedInfo : StatusInfo :=
  { name := "nyanpasu-service", version := "1.0", status := ServiceStatus.stopped,
    server := none }

/-- A successful status subprocess output (contents delegated to the parser). -/
def okStatusOutput : CmdOutput :=
  { exit := { success := true, code := some 0, signal := none },
    stdoutUtf8 := some "status-json", stderr := "" }

/-- A control environment whose `status()` queries report `Running`. -/
def c6EnvRunning : ControlEnv :=
  { pathExists := true, statusSpawns := [some okStatusOutput],
    parseJson := fun _ => some runningInfo, argsOk := true,
    elevateResult := Except.ok ({ success := true, code := some 0, signal := none }, ""),
    serviceMode := true, healthRunning := false }

/-- A control environment whose `status()` queries report `Stopped`. -/
def c6EnvStopped : ControlEnv :=
  { c6EnvRunning with parseJson := fun _ => some stoppedInfo }

/-- A control environment whose `status()` queries report `NotInstalled`. -/
def c6EnvNotInstalled : ControlEnv :=
  { c6EnvRunning with parseJson := fun _ => some notInstalledInfo }

/-- Witness for C6 at concrete environments: `install` and `start` when the
status query reports `Running`, `stop` when it reports `Stopped`, `uninstall`
when it reports `NotInstalled`. -/
theorem claim_C6_witness :
    install_service c6EnvRunning = (Except.ok (), []) ∧
    start_service c6EnvRunning = (Except.ok (), []) ∧
    stop_service c6EnvStopped = (Except.ok (), []) ∧
    uninstall_service c6EnvNotInstalled = (Except.ok (), []) :=
  ⟨(claim_C6 c6EnvRunning).1 runningInfo (by decide) (by decide),
   (claim_C6 c6EnvRunning).2.1 runningInfo (by decide) (by decide),
   (claim_C6 c6EnvStopped).2.2.1 stoppedInfo (by decide) (Or.inl (by decide)),
   (claim_C6 c6EnvNotInstalled).2.2.2 notInstalledInfo (by decide) (by decide)⟩

/-- When the resolved executable is missing, `status()` (and hence every
pre-check) reports the synthetic `NotInstalled`. -/
theorem statusAt_noPath (env : ControlEnv) (h : env.pathExists = false) (n : Nat) :
    statusAt env n = Except.ok notInstalledInfo := by
  simp [statusAt, statusModel, h]

/-- Claim C10: when the resolved service executable path does not exist, the
control operations are asymmetric: `install_service` returns a hard error
(the executable-not-found error whenever argument preparation succeeded, an
error in any case), `start_service` returns the executable-not-found error,
while `update_service`, `uninstall_service` and `stop_service` return `Ok`
having performed no action (empty effect trace). -/
theorem claim_C10 (env : ControlEnv) (h : env.pathExists = false) :
    (∃ e, (install_service env).1 = Except.error e) ∧
    (env.argsOk = true → install_service env = (Except.error CtlErr.exeNotFound, [])) ∧
    start_service env = (Except.error CtlErr.exeNotFound, []) ∧
    update_service env = (Except.ok (), []) ∧
    uninstall_service env = (Except.ok (), []) ∧
    stop_service env = (Except.ok (), []) := by
  have h0 := statusAt_noPath env h 0
  refine ⟨?_, ?_, ?_, ?_, ?_, ?_⟩
  · cases hA : env.argsOk with
    | false =>
      exact ⟨CtlErr.argsFailed, by simp [install_service, h0, notInstalledInfo,
        install_service_inner, hA]⟩
    | true =>
      exact ⟨CtlErr.exeNotFound, by simp [install_service, h0, notInstalledInfo,
        install_service_inner, hA, h]⟩
  · intro hA
    simp [install_service, h0, notInstalledInfo, install_service_inner, hA, h]
  · simp [start_service, h0, notInstalledInfo, start_service_inner, h]
  · simp [update_service, h]
  · simp [uninstall_service, h0, notInstalledInfo]
  · simp [stop_service, h0, notInstalledInfo]

/-- A control environment with the resolved executable missing. -/
def c10Env : ControlEnv :=
  { pathExists := false, statusSpawns := [],
    parseJson := fun _ => none, argsOk := true,
    elevateResult := Except.ok ({ success := true, code := some 0, signal := none }, ""),
    serviceMode := true, healthRunning := false }

/-- Witness for C10 at a concrete environment with the executable missing. -/
theorem claim_C10_witness :
    install_service c10Env = (Except.error CtlErr.exeNotFound, []) ∧
    start_service c10Env = (Except.error CtlErr.exeNotFound, []) ∧
    update_service c10Env = (Except.ok (), []) ∧
    uninstall_service c10Env = (Except.ok (), []) ∧
    stop_service c10Env = (Except.ok (), []) :=
  ⟨(claim_C10 c10Env rfl).2.1 rfl,
   (claim_C10 c10Env rfl).2.2.1,
   (claim_C10 c10Env rfl).2.2.2.1,
   (claim_C10 c10Env rfl).2.2.2.2.1,
   (claim_C10 c10Env rfl).2.2.2.2.2⟩

/-! ### Claim theorems: the Privilege Manager (C7, C8) -/

/-- The manager's operation classification (`execute_service_operation`):
`SetTunMode{enable:false}` is a disable operation, everything else an enable
operation. -/
def opIsDisable (op : PrivilegedOperation) : Bool :=
  match op with
  | PrivilegedOperation.setTunMode enable => !enable
  | _ => false

/-- Is an `Except` value an `ok`? -/
def exceptIsOk {e a : Type} : Except e a → Bool
  | Except.ok _ => true
  | Except.error _ => false

/-- The result record the manager wraps a handler outcome into. -/
def handlerWrapped (execResult : Except String Unit) : PrivilegedOperationResult :=
  match execResult with
  | Except.ok () => { success := true, message := none, handlerUsed := handlerName }
  | Except.error e =>
    { success := false, message := some ("操作失败: " ++ e), handlerUsed := handlerName }

/-- The result record the manager wraps a fallback `patch_verge` outcome into. -/
def patchWrapped (patchResult : Except String Unit) : PrivilegedOperationResult :=
  match patchResult with
  | Except.ok () =>
    { success := true, message := some "已关闭TUN模式配置", handlerUsed := "config_direct" }
  | Except.error e =>
    { success := false, message := some ("配置更新失败: " ++ e), handlerUsed := "config_direct" }

theorem execute_operation_isOk (env : PrivEnv) (op : PrivilegedOperation) :
    exceptIsOk (execute_operation env op).1 = true := by
  unfold execute_operation execute_service_operation
    handle_disable_operation wrapHandlerResult
  dsimp only
  repeat' split
  all_goals rfl

theorem execute_disable_handler (env : PrivEnv) (op : PrivilegedOperation)
    (hd : opIsDisable op = true) (ha : (env.handlerSome && availAt env 0) = true) :
    (execute_operation env op).1 = Except.ok (handlerWrapped env.execResult) := by
  rcases op with ⟨enable⟩ | ⟨dns⟩ | ⟨cp⟩ <;> simp [opIsDisable] at hd
  cases enable with
  | true => simp at hd
  | false =>
    cases hr : env.execResult with
    | ok u =>
      cases u
      simp [execute_operation, execute_service_operation, handle_disable_operation,
        wrapHandlerResult, handlerWrapped, ha, hr]
    | error e =>
      simp [execute_operation, execute_service_operation, handle_disable_operation,
        wrapHandlerResult, handlerWrapped, ha, hr]

theorem execute_enable_handler (env : PrivEnv) (op : PrivilegedOperation)
    (hd : opIsDisable op = false) (hs : env.handlerSome = true)
    (ha : availAt env 0 = true) :
    (execute_operation env op).1 = Except.ok (handlerWrapped env.execResult) := by
  rcases op with ⟨enable⟩ | ⟨dns⟩ | ⟨cp⟩
  · cases enable with
    | false => simp [opIsDisable] at hd
    | true =>
      cases hr : env.execResult with
      | ok u =>
        cases u
        simp [execute_operation, execute_service_operation, wrapHandlerResult,
          handlerWrapped, hs, ha, hr]
      | error e =>
        simp [execute_operation, execute_service_operation, wrapHandlerResult,
          handlerWrapped, hs, ha, hr]
  · cases hr : env.execResult with
    | ok u =>
      cases u
      simp [execute_operation, execute_service_operation, wrapHandlerResult,
        handlerWrapped, hs, ha, hr]
    | error e =>
      simp [execute_operation, execute_service_operation, wrapHandlerResult,
        handlerWrapped, hs, ha, hr]
  · cases hr : env.execResult with
    | ok u =>
      cases u
      simp [execute_operation, execute_service_operation, wrapHandlerResult,
        handlerWrapped, hs, ha, hr]
    | error e =>
      simp [execute_operation, execute_service_operation, wrapHandlerResult,
        handlerWrapped, hs, ha, hr]

theorem execute_enable_handler_after_setup (env : PrivEnv) (op : PrivilegedOperation)
    (hd : opIsDisable op = false) (hs : env.handlerSome = true)
    (ha : availAt env 0 = false) (hauto : env.autoServiceSetup = true)
    (hok : env.autoSetupOk = true) (ha1 : availAt env 1 = true) :
    (execute_operation env op).1 = Except.ok (handlerWrapped env.execResult) := by
  rcases op with ⟨enable⟩ | ⟨dns⟩ | ⟨cp⟩
  · cases enable with
    | false => simp [opIsDisable] at hd
    | true =>
      cases hr : env.execResult with
      | ok u =>
        cases u
        simp [execute_operation, execute_service_operation, wrapHandlerResult,
          handlerWrapped, hs, ha, hauto, hok, ha1, hr]
      | error e =>
        simp [execute_operation, execute_service_operation, wrapHandlerResult,
          handlerWrapped, hs, ha, hauto, hok, ha1, hr]
  · cases hr : env.execResult with
    | ok u =>
      cases u
      simp [execute_operation, execute_service_operation, wrapHandlerResult,
        handlerWrapped, hs, ha, hauto, hok, ha1, hr]
    | error e =>
      simp [execute_operation, execute_service_operation, wrapHandlerResult,
        handlerWrapped, hs, ha, hauto, hok, ha1, hr]
  · cases hr : env.execResult with
    | ok u =>
      cases u
      simp [execute_operation, execute_service_operation, wrapHandlerResult,
        handlerWrapped, hs, ha, hauto, hok, ha1, hr]
    | error e =>
      simp [execute_operation, execute_service_operation, wrapHandlerResult,
        handlerWrapped, hs, ha, hauto, hok, ha1, hr]

theorem execute_disable_fallback (env : PrivEnv)
    (hna : (env.handlerSome && availAt env 0) = false) :
    execute_operation env (PrivilegedOperation.setTunMode false) =
      (Except.ok (patchWrapped env.patchResult), [PEff.patchVerge (some false)]) := by
  cases hp : env.patchResult with
  | ok u =>
    cases u
    simp [execute_operation, execute_service_operation, handle_disable_operation,
      patchWrapped, hna, hp]
  | error e =>
    simp [execute_operation, execute_service_operation, handle_disable_operation,
      patchWrapped, hna, hp]

/-- Claim C7: `execute_operation` never returns `Err` — in particular never
because the handler's execute failed.  On every path that reaches the handler
(the disable path with an available handler, the enable path with an
immediately available handler, and the enable path after a successful
auto-setup), the outcome is `Ok` of the wrapped handler result, which has
`success:false` plus a message exactly when the handler failed and
`success:true` on handler success; on the disable path's config-patch
fallback the patch failure is likewise wrapped into `Ok` with
`success:false` and a message. -/
theorem claim_C7 (env : PrivEnv) (op : PrivilegedOperation) :
    exceptIsOk (execute_operation env op).1 = true ∧
    (handlerWrapped (Except.ok ())).success = true ∧
    (∀ e, (handlerWrapped (Except.error e)).success = false ∧
      (handlerWrapped (Except.error e)).message.isSome = true) ∧
    (∀ e, (patchWrapped (Except.error e)).success = false ∧
      (patchWrapped (Except.error e)).message.isSome = true) ∧
    (opIsDisable op = true → (env.handlerSome && availAt env 0) = true →
      (execute_operation env op).1 = Except.ok (handlerWrapped env.execResult)) ∧
    (opIsDisable op = false → env.handlerSome = true → availAt env 0 = true →
      (execute_operation env op).1 = Except.ok (handlerWrapped env.execResult)) ∧
    (opIsDisable op = false → env.handlerSome = true → availAt env 0 = false →
      env.autoServiceSetup = true → env.autoSetupOk = true → availAt env 1 = true →
      (execute_operation env op).1 = Except.ok (handlerWrapped env.execResult)) ∧
    (op = PrivilegedOperation.setTunMode false →
      (env.handlerSome && availAt env 0) = false →
      (execute_operation env op).1 = Except.ok (patchWrapped env.patchResult)) := by
  refine ⟨execute_operation_isOk env op, rfl, fun e => ⟨rfl, rfl⟩, fun e => ⟨rfl, rfl⟩,
    execute_disable_handler env op, execute_enable_handler env op,
    execute_enable_handler_after_setup env op, ?_⟩
  intro hop hna
  rw [hop, execute_disable_fallback env hna]

/-- A privilege environment whose handler is available but whose execute
fails. -/
def c7EnvHandlerFail : PrivEnv :=
  { handlerSome := true, avail := [true, true], execResult := Except.error "boom",
    autoServiceSetup := true, autoSetupOk := true, patchResult := Except.ok () }

/-- A privilege environment whose handler is available and succeeds. -/
def c7EnvHandlerOk : PrivEnv :=
  { c7EnvHandlerFail with execResult := Except.ok () }

/-- A privilege environment with the handler unavailable and a failing
fallback patch. -/
def c7EnvPatchFail : PrivEnv :=
  { handlerSome := true, avail := [false], execResult := Except.ok (),
    autoServiceSetup := false, autoSetupOk := false,
    patchResult := Except.error "patch failed" }

/-- Witness for C7 at concrete inputs: a failing handler on the disable path,
a succeeding handler on the enable path, and a failing fallback patch. -/
theorem claim_C7_witness :
    (execute_operation c7EnvHandlerFail (PrivilegedOperation.setTunMode false)).1 =
      Except.ok (handlerWrapped (Except.error "boom")) ∧
    (execute_operation c7EnvHandlerOk (PrivilegedOperation.setTunMode true)).1 =
      Except.ok (handlerWrapped (Except.ok ())) ∧
    (execute_operation c7EnvPatchFail (PrivilegedOperation.setTunMode false)).1 =
      Except.ok (patchWrapped (Except.error "patch failed")) :=
  ⟨(claim_C7 c7EnvHandlerFail (PrivilegedOperation.setTunMode false)).2.2.2.2.1
      (by decide) (by decide),
   (claim_C7 c7EnvHandlerOk (PrivilegedOperation.setTunMode true)).2.2.2.2.2.1
      (by decide) (by decide) (by decide),
   (claim_C7 c7EnvPatchFail (PrivilegedOperation.setTunMode false)).2.2.2.2.2.2.2
      rfl (by decide)⟩

/-- Claim C8: with the service handler reporting unavailable, executing
`SetTunMode{enable:false}` falls back to patching the configuration with
`enable_tun_mode = Some(false)` via `patch_verge` (the only effect), and the
returned result has `handler_used = "config_direct"` and `success:true` if
and only if the patch call succeeds. -/
theorem claim_C8 (env : PrivEnv) (h1 : env.handlerSome = true)
    (h2 : availAt env 0 = false) :
    execute_operation env (PrivilegedOperation.setTunMode false) =
      (Except.ok (patchWrapped env.patchResult), [PEff.patchVerge (some false)]) ∧
    ((patchWrapped env.patchResult).success = true ↔
      env.patchResult = Except.ok ()) ∧
    (patchWrapped env.patchResult).handlerUsed = "config_direct" := by
  have hna : (env.handlerSome && availAt env 0) = false := by simp [h1, h2]
  refine ⟨execute_disable_fallback env hna, ?_, ?_⟩
  · cases hp : env.patchResult with
    | ok u => cases u; simp [patchWrapped]
    | error e => simp [patchWrapped]
  · cases hp : env.patchResult with
    | ok u => cases u; rfl
    | error e => rfl

/-- A privilege environment with the handler unavailable and a succeeding
fallback patch. -/
def c8Env : PrivEnv :=
  { handlerSome := true, avail := [false], execResult := Except.ok (),
    autoServiceSetup := false, autoSetupOk := false, patchResult := Except.ok () }

/-- Witness for C8 at a concrete environment with the handler unavailable
and a succeeding patch. -/
theorem claim_C8_witness :
    execute_operation c8Env (PrivilegedOperation.setTunMode false) =
      (Except.ok (patchWrapped (Except.ok ())), [PEff.patchVerge (some false)]) ∧
    ((patchWrapped (Except.ok ())).success = true ↔
      (Except.ok () : Except String Unit) = Except.ok ()) ∧
    (patchWrapped (Except.ok ())).handlerUsed = "config_direct" :=
  claim_C8 c8Env rfl rfl

/-! ### Claim theorems: service path resolution (C9) -/

theorem serviceBaseName_mem_names (env : PathEnv) :
    serviceBaseName env.exeSuffix ∈ pathEnvNames env := by
  unfold pathEnvNames service_file_names
  cases env.triple <;> simp

theorem installSidecar_mem_candidates (env : PathEnv) (a : FsPath)
    (happ : env.appInstall = some a) :
    a ++ ["sidecar", serviceBaseName env.exeSuffix] ∈ get_service_path_candidates env := by
  unfold get_service_path_candidates
  rw [happ]
  apply List.mem_append_left
  apply List.mem_append_right
  apply List.mem_append_left
  exact List.mem_map.mpr ⟨serviceBaseName env.exeSuffix, serviceBaseName_mem_names env, rfl⟩

/-- Claim C9: `get_service_path` returns the first candidate that exists,
walking the candidate list in order (exe-dir sidecar, exe dir, Program Files,
install-dir sidecar, install dir, PROGRAMDATA); when no candidate exists it
returns the fallback `app-install-dir/<service binary name>` without erroring;
and when the binary exists exactly at the install dir's `sidecar`
subdirectory, that path is returned. -/
theorem claim_C9 (env : PathEnv) (a : FsPath) (happ : env.appInstall = some a) :
    ((∀ p ∈ get_service_path_candidates env, env.fileExists p = false) →
      get_service_path env = Except.ok (a ++ [serviceBaseName env.exeSuffix])) ∧
    (∀ target, target = a ++ ["sidecar", serviceBaseName env.exeSuffix] →
      (∀ p, env.fileExists p = true ↔ p = target) →
      get_service_path env = Except.ok target) := by
  constructor
  · intro hnone
    have hfind :
        (get_service_path_candidates env).find? (fun p => env.fileExists p) = none := by
      rw [List.find?_eq_none]
      intro p hp
      simp [hnone p hp]
    simp [get_service_path, hfind, happ]
  · intro target htarget hex
    have hmem : target ∈ get_service_path_candidates env := by
      rw [htarget]; exact installSidecar_mem_candidates env a happ
    cases hfind :
        (get_service_path_candidates env).find? (fun p => env.fileExists p) with
    | none =>
      exact absurd ((hex target).mpr rfl)
        (by simpa using List.find?_eq_none.mp hfind target hmem)
    | some y =>
      have hy : env.fileExists y = true := by
        have := List.find?_some hfind
        simpa using this
      have : y = target := (hex y).mp hy
      simp [get_service_path, hfind, this]

/-- A path environment where the binary exists only at the install dir's
`sidecar` subdirectory, with every higher-priority base directory present. -/
def c9Env : PathEnv :=
  { exeDir := some ["C:", "apps", "bin"],
    programFiles := some ["C:", "Program Files"],
    appInstall := some ["C:", "nyanpasu"],
    programData := some ["C:", "ProgramData"],
    triple := some "x86_64-pc-windows-msvc",
    exeSuffix := ".exe",
    fileExists := fun p => p == ["C:", "nyanpasu", "sidecar", "nyanpasu-service.exe"] }

/-- The same tree with no file present anywhere. -/
def c9EnvEmpty : PathEnv :=
  { c9Env with fileExists := fun _ => false }

/-- Witness for C9 at concrete environments: the binary present only at the
install-dir sidecar path is resolved there; an empty tree resolves to the
fallback path. -/
theorem claim_C9_witness :
    get_service_path c9Env =
      Except.ok ["C:", "nyanpasu", "sidecar", "nyanpasu-service.exe"] ∧
    get_service_path c9EnvEmpty =
      Except.ok ["C:", "nyanpasu", "nyanpasu-service.exe"] :=
  ⟨(claim_C9 c9Env ["C:", "nyanpasu"] rfl).2
      ["C:", "nyanpasu", "sidecar", "nyanpasu-service.exe"] (by decide)
      (fun p => by simp [c9Env]),
   (claim_C9 c9EnvEmpty ["C:", "nyanpasu"] rfl).1 (fun p _ => rfl)⟩

end Nyanpasu
